import Mathlib

/-!
Verification of the temporal filter `DateAdded` from
`src/organize/filters/date_added.py`.

The embedding models the proleptic Gregorian calendar arithmetic of the
`pendulum` 2.0 library that the source relies on (timestamp conversion,
calendar-aware duration addition with day clamping, the strict `is_past`
comparison, and the truthiness of `Duration.in_words`, which yields the
empty string exactly for the all-zero duration), together with the
filter itself: construction (`__init__`), metadata resolution
(`_date_added`, with the filesystem stat and the `mdls` subprocess call
made explicit inputs) and evaluation (`pipeline`).
-/

namespace Organize

/-- Gregorian leap-year test, as in the calendar arithmetic of the
datetime library used by the source. -/
def isLeap (y : Nat) : Bool :=
  y % 4 == 0 && (y % 100 != 0 || y % 400 == 0)

/-- Number of days of month `m` (1-12) of year `y`. -/
def daysInMonth (y m : Nat) : Nat :=
  if m == 2 then (if isLeap y then 29 else 28)
  else if m == 4 || m == 6 || m == 9 || m == 11 then 30
  else 31

/-- Days in all years before year `y` of the proleptic Gregorian
calendar (year 1 gives 0). -/
def daysBeforeYear (y : Nat) : Nat :=
  let n := y - 1
  n * 365 + n / 4 - n / 100 + n / 400

/-- Days in all months of year `y` strictly before month `m`. -/
def daysBeforeMonth (y m : Nat) : Nat :=
  ((List.range (m - 1)).map (fun i => daysInMonth y (i + 1))).sum

/-- Proleptic Gregorian ordinal of the civil date `y-m-d`
(0001-01-01 is ordinal 1). -/
def ymd2ord (y m d : Nat) : Nat :=
  daysBeforeYear y + daysBeforeMonth y m + d

/-- Scan the months of year `y` to split a zero-based day-of-year `n`
into a month and a one-based day; `fuel` bounds the scan. -/
def findMonthDay (y : Nat) : Nat → Nat → Nat → Nat × Nat
  | 0, m, n => (m, n + 1)
  | fuel + 1, m, n =>
    if n < daysInMonth y m then (m, n + 1)
    else findMonthDay y fuel (m + 1) (n - daysInMonth y m)

/-- Inverse of `ymd2ord`: civil date of a positive proleptic Gregorian
ordinal, by the standard 400/100/4/1-year cycle decomposition. -/
def ord2ymd (ord : Nat) : Nat × Nat × Nat :=
  let n := ord - 1
  let n400 := n / 146097
  let r1 := n % 146097
  let n100 := r1 / 36524
  let r2 := r1 % 36524
  let n4 := r2 / 1461
  let r3 := r2 % 1461
  let n1 := r3 / 365
  let r4 := r3 % 365
  let year := n400 * 400 + n100 * 100 + n4 * 4 + n1 + 1
  if n1 == 4 || n100 == 4 then (year - 1, 12, 31)
  else
    let md := findMonthDay year 11 1 r4
    (year, md.1, md.2)

/-- Proleptic Gregorian ordinal of 1970-01-01, the Unix epoch. -/
def epochOrdinal : Nat := 719163

/-- A timezone-aware civil timestamp, the shape of a `pendulum.DateTime`.
The timezone is modelled as a fixed offset from UTC in minutes. -/
structure DateTime where
  year : Nat
  month : Nat
  day : Nat
  hour : Nat
  minute : Nat
  second : Nat
  tz : Int
  deriving DecidableEq

/-- Seconds from 0001-01-01 00:00:00 to the civil (local) reading of the
timestamp. -/
def DateTime.toLocalSeconds (dt : DateTime) : Nat :=
  (ymd2ord dt.year dt.month dt.day - 1) * 86400 +
    dt.hour * 3600 + dt.minute * 60 + dt.second

/-- The absolute instant of the timestamp, as Unix epoch seconds. -/
def DateTime.toEpoch (dt : DateTime) : Int :=
  (dt.toLocalSeconds : Int) - (((epochOrdinal - 1) * 86400 : Nat) : Int) - dt.tz * 60

/-- Rebuild a timestamp from seconds since 0001-01-01 in local time,
attaching the timezone. -/
def fromLocalSeconds (s : Nat) (tz : Int) : DateTime :=
  let days := s / 86400
  let rem := s % 86400
  let ymd := ord2ymd (days + 1)
  { year := ymd.1, month := ymd.2.1, day := ymd.2.2,
    hour := rem / 3600, minute := rem % 3600 / 60, second := rem % 60, tz := tz }

/-- Model of `pendulum.from_timestamp(ts, tz)`: localize Unix epoch
seconds to the given timezone (valid for instants on or after year 1 in
local time, which covers every filesystem timestamp). -/
def fromTimestamp (ts : Int) (tz : Int) : DateTime :=
  fromLocalSeconds (ts + tz * 60 + (((epochOrdinal - 1) * 86400 : Nat) : Int)).toNat tz

/-- Model of `pendulum.DateTime.is_past()`: the instant lies strictly
before the current instant (given as Unix epoch seconds). -/
def DateTime.is_past (dt : DateTime) (now : Int) : Bool :=
  dt.toEpoch < now

/-- The seven components of a `pendulum.duration(...)`, as assembled by
`DateAdded.__init__`. -/
structure Duration where
  years : Nat := 0
  months : Nat := 0
  weeks : Nat := 0
  days : Nat := 0
  hours : Nat := 0
  minutes : Nat := 0
  seconds : Nat := 0
  deriving DecidableEq

/-- Truthiness of `pendulum.Duration.in_words()` (pendulum 2.0): the
rendered string is empty, hence falsy, exactly for the all-zero
duration, and nonempty for every other duration. -/
def Duration.inWordsNonempty (d : Duration) : Bool :=
  d.years != 0 || d.months != 0 || d.weeks != 0 || d.days != 0 ||
  d.hours != 0 || d.minutes != 0 || d.seconds != 0

/-- Model of `pendulum.DateTime.__add__(Duration)` (helpers.add_duration):
years and months move the civil date with the day clamped to the length
of the target month; weeks, days, hours, minutes and seconds are then
added as a fixed-length shift of local time. -/
def DateTime.addDuration (dt : DateTime) (d : Duration) : DateTime :=
  let dt1 :=
    if d.years != 0 || d.months != 0 then
      let deltaMonths := d.months + d.years * 12
      let mi := dt.month - 1 + deltaMonths
      let year := dt.year + mi / 12
      let month := mi % 12 + 1
      let day := min dt.day (daysInMonth year month)
      { dt with year := year, month := month, day := day }
    else dt
  let shift := (d.days + d.weeks * 7) * 86400 + d.hours * 3600 + d.minutes * 60 + d.seconds
  fromLocalSeconds (dt1.toLocalSeconds + shift) dt.tz

/-- The Python exceptions that can cross the boundaries of
`_date_added` and `pipeline`. -/
inductive PyExc where
  | pathNotFoundError
  | attributeError
  | fileNotFoundError
  | calledProcessError
  deriving DecidableEq

/-- The slice of `os.stat_result` the filter reads. -/
structure StatResult where
  st_mtime : Int
  deriving DecidableEq

/-- The filesystem state of the evaluated path at call time: `none`
when the path does not exist (so `path.stat()` raises), otherwise the
stat result. -/
structure PathState where
  stat : Option StatResult
  deriving DecidableEq

/-- Outcome of the `subprocess.check_output(["mdls", ...])` call:
either the native kMDItemDateAdded value (as a timestamp) or the
exception the call raised. -/
inductive MdlsResult where
  | ok (output : Int)
  | raises (e : PyExc)
  deriving DecidableEq

/-- Python whitespace test used by `str.strip()` (ASCII range). -/
def pyIsSpace (c : Char) : Bool :=
  c = ' ' || c = '\t' || c = '\n' || c = '\r' || c = '\x0b' || c = '\x0c'

/-- Lower-case a character as `str.lower()` does (ASCII range). -/
def pyLowerChar (c : Char) : Char :=
  if 65 ≤ c.toNat && c.toNat ≤ 90 then Char.ofNat (c.toNat + 32) else c

/-- Model of `str.strip()`: drop leading and trailing whitespace. -/
def pyStrip (s : String) : String :=
  ⟨((s.data.dropWhile pyIsSpace).reverse.dropWhile pyIsSpace).reverse⟩

/-- Model of `str.lower()`: lower-case every character. -/
def pyLower (s : String) : String :=
  ⟨s.data.map pyLowerChar⟩

/-- The configured state of a `DateAdded` filter after `__init__`. -/
structure DateAdded where
  _mode : String
  is_older : Bool
  timezone : Int
  timedelta : Duration
  deriving DecidableEq

/-- Model of `DateAdded.__init__`: normalize and validate `mode`,
record the direction and timezone, and assemble the duration; an
unrecognized mode raises ValueError. -/
def DateAdded.init (years months weeks days hours minutes seconds : Nat)
    (mode : String) (timezone : Int) : Except String DateAdded :=
  let m := pyLower (pyStrip mode)
  if m != "older" && m != "newer" then
    .error "Unknown option for mode: must be older or newer."
  else
    .ok { _mode := m, is_older := m == "older", timezone := timezone,
          timedelta := { years := years, months := months, weeks := weeks,
                         days := days, hours := hours, minutes := minutes,
                         seconds := seconds } }

/-- Model of `DateAdded._date_added`: stat the path (raising when it is
missing), run the `mdls` query inside `try/except AttributeError`
binding its result to `time`, and then return the instant built from
the last-modified time of a fresh stat — the bound `time` is never
used, exactly as in the source. -/
def DateAdded._date_added (self : DateAdded) (path : PathState)
    (mdls : MdlsResult) : Except PyExc DateTime :=
  match path.stat with
  | none => .error .pathNotFoundError
  | some stat =>
    let timeRes : Except PyExc Int :=
      match mdls with
      | .ok output => .ok output
      | .raises e => if e == .attributeError then .ok stat.st_mtime else .error e
    match timeRes with
    | .error e => .error e
    | .ok _time => .ok (fromTimestamp stat.st_mtime self.timezone)

/-- The match payload: a single-key mapping from the string key
`dateadded` to the resolved instant. -/
structure MatchPayload where
  key : String
  dateadded : DateTime
  deriving DecidableEq

/-- Model of `DateAdded.pipeline`: resolve the instant, then — unless
the duration is the null duration, whose `in_words()` is falsy — match
exactly when the direction flag agrees with whether instant plus
duration is already past; on match return the payload, otherwise the
no-match sentinel `none`. -/
def DateAdded.pipeline (self : DateAdded) (path : PathState)
    (mdls : MdlsResult) (now : Int) : Except PyExc (Option MatchPayload) :=
  match self._date_added path mdls with
  | .error e => .error e
  | .ok file_added =>
    let matched : Bool :=
      if self.timedelta.inWordsNonempty then
        self.is_older == (file_added.addDuration self.timedelta).is_past now
      else
        true
    if matched then .ok (some { key := "dateadded", dateadded := file_added })
    else .ok none

/-- Statement-by-statement translation of `pipeline` with the receiver
threaded through explicitly, so that mutation of the configured state
is observable: no statement of the source assigns to a field of
`self`, so every branch hands the receiver on unchanged. -/
def DateAdded.pipelineSt (self : DateAdded) (path : PathState)
    (mdls : MdlsResult) (now : Int) :
    Except PyExc (Option MatchPayload) × DateAdded :=
  match self._date_added path mdls with
  | .error e => (.error e, self)
  | .ok file_added =>
    let matched : Bool :=
      if self.timedelta.inWordsNonempty then
        self.is_older == (file_added.addDuration self.timedelta).is_past now
      else
        true
    if matched then (.ok (some { key := "dateadded", dateadded := file_added }), self)
    else (.ok none, self)

/-- True exactly when an evaluation outcome is a successful match. -/
def isMatch : Except PyExc (Option MatchPayload) → Bool
  | .ok (some _) => true
  | _ => false

/-- An OLDER-direction filter with the given duration and timezone. -/
def olderFilter (d : Duration) (tz : Int) : DateAdded :=
  { _mode := "older", is_older := true, timezone := tz, timedelta := d }

/-- A NEWER-direction filter with the given duration and timezone. -/
def newerFilter (d : Duration) (tz : Int) : DateAdded :=
  { _mode := "newer", is_older := false, timezone := tz, timedelta := d }

/-- A concrete ten-day OLDER filter in UTC, for concrete evaluations. -/
def sampleFilter : DateAdded := olderFilter { days := 10 } 0

/-- The `in_words()` truthiness test of `pipeline` is exactly the test
for a non-null duration. -/
theorem Duration.inWordsNonempty_eq_true_iff (d : Duration) :
    d.inWordsNonempty = true ↔ d ≠ {} := by
  cases d with
  | mk y mo w da h mi s =>
    simp only [Duration.inWordsNonempty, Bool.or_eq_true, bne_iff_ne, ne_eq,
      Duration.mk.injEq, not_and]
    tauto

/-- `_date_added` reads only the timezone of the configured state, so
two filters with the same timezone resolve identically. -/
theorem date_added_depends_only_on_timezone (a b : DateAdded)
    (path : PathState) (mdls : MdlsResult) (h : a.timezone = b.timezone) :
    a._date_added path mdls = b._date_added path mdls := by
  unfold DateAdded._date_added
  rw [h]

/-- The local variable `matched` of `pipeline`, as a function of the
resolved instant. -/
def matchDecision (self : DateAdded) (i : DateTime) (now : Int) : Bool :=
  if self.timedelta.inWordsNonempty then
    self.is_older == (i.addDuration self.timedelta).is_past now
  else true

/-- Shape of `pipeline` once the instant has been resolved: an
if-then-else on the match decision of the source. -/
theorem pipeline_resolved (self : DateAdded) (path : PathState)
    (mdls : MdlsResult) (now : Int) (i : DateTime)
    (hres : self._date_added path mdls = .ok i) :
    self.pipeline path mdls now =
      if matchDecision self i now
      then .ok (some { key := "dateadded", dateadded := i })
      else .ok none := by
  simp only [DateAdded.pipeline, hres]
  rfl

/-- Claim C1: the specification expects a successfully retrieved native
date-added value to be preferred over the last-modified time. The code
violates this: whatever value `v` the native mdls query returns,
`_date_added` discards it and returns the instant built from the
last-modified time of the stat, so the native attribute is never used. -/
theorem date_added_discards_native_value :
    ∀ (self : DateAdded) (stat : StatResult) (v : Int),
      self._date_added ⟨some stat⟩ (.ok v) =
        .ok (fromTimestamp stat.st_mtime self.timezone) :=
  fun _ _ _ => rfl

/-- Claim C2: the specification expects every failure of the native
query to trigger the last-modified fallback without raising. The code
only catches AttributeError; the failures the mdls subprocess actually
produces (FileNotFoundError when the executable is missing,
CalledProcessError when it fails) propagate out of `_date_added` and
abort evaluation. -/
theorem date_added_uncaught_query_failure :
    (∀ (self : DateAdded) (stat : StatResult),
        self._date_added ⟨some stat⟩ (.raises .attributeError) =
          .ok (fromTimestamp stat.st_mtime self.timezone))
    ∧ sampleFilter._date_added ⟨some ⟨1000⟩⟩ (.raises .fileNotFoundError) =
        .error .fileNotFoundError
    ∧ sampleFilter._date_added ⟨some ⟨1000⟩⟩ (.raises .calledProcessError) =
        .error .calledProcessError :=
  ⟨fun _ _ => rfl, rfl, rfl⟩

/-- Claim C3: whenever the instant resolves, a filter whose seven
duration components are all zero returns the match payload, for every
path state and both directions — the null duration always matches. -/
theorem pipeline_null_duration_always_matches
    (self : DateAdded) (path : PathState) (mdls : MdlsResult) (now : Int)
    (i : DateTime)
    (hz : self.timedelta.years = 0 ∧ self.timedelta.months = 0 ∧
          self.timedelta.weeks = 0 ∧ self.timedelta.days = 0 ∧
          self.timedelta.hours = 0 ∧ self.timedelta.minutes = 0 ∧
          self.timedelta.seconds = 0)
    (hres : self._date_added path mdls = .ok i) :
    self.pipeline path mdls now =
      .ok (some { key := "dateadded", dateadded := i }) := by
  obtain ⟨h1, h2, h3, h4, h5, h6, h7⟩ := hz
  have hw : self.timedelta.inWordsNonempty = false := by
    simp [Duration.inWordsNonempty, h1, h2, h3, h4, h5, h6, h7]
  rw [pipeline_resolved self path mdls now i hres]
  have hm : matchDecision self i now = true := by
    simp [matchDecision, hw]
  rw [hm]
  rfl

/-- Witness for C3: a NEWER filter with all-zero duration matches a
concrete path even though the instant lies in the past. -/
theorem pipeline_null_duration_always_matches_witness :
    (newerFilter {} 0).pipeline ⟨some ⟨1000⟩⟩ (.raises .attributeError) 5000 =
      .ok (some { key := "dateadded", dateadded := fromTimestamp 1000 0 }) :=
  pipeline_null_duration_always_matches (newerFilter {} 0) ⟨some ⟨1000⟩⟩
    (.raises .attributeError) 5000 (fromTimestamp 1000 0)
    ⟨rfl, rfl, rfl, rfl, rfl, rfl, rfl⟩ rfl

/-- Claim C4: with a non-null duration, evaluation matches exactly when
the direction flag agrees with whether the resolved instant plus the
duration is already past: OLDER matches iff the boundary is past, NEWER
matches iff it is present or future. -/
theorem pipeline_direction_semantics
    (self : DateAdded) (path : PathState) (mdls : MdlsResult) (now : Int)
    (i : DateTime)
    (hres : self._date_added path mdls = .ok i)
    (hnz : self.timedelta ≠ {}) :
    isMatch (self.pipeline path mdls now) =
      (self.is_older == (i.addDuration self.timedelta).is_past now) := by
  have hw : self.timedelta.inWordsNonempty = true :=
    (Duration.inWordsNonempty_eq_true_iff self.timedelta).2 hnz
  rw [pipeline_resolved self path mdls now i hres]
  have hm : matchDecision self i now =
      (self.is_older == (i.addDuration self.timedelta).is_past now) := by
    simp [matchDecision, hw]
  rw [hm]
  cases hb : (self.is_older == (i.addDuration self.timedelta).is_past now) <;>
    simp [isMatch]

/-- Witness for C4: the ten-day OLDER filter on a path added fifteen
days before now. -/
theorem pipeline_direction_semantics_witness :
    isMatch (sampleFilter.pipeline ⟨some ⟨0⟩⟩ (.raises .attributeError) 1296000) =
      (sampleFilter.is_older ==
        ((fromTimestamp 0 0).addDuration sampleFilter.timedelta).is_past 1296000) :=
  pipeline_direction_semantics sampleFilter ⟨some ⟨0⟩⟩ (.raises .attributeError)
    1296000 (fromTimestamp 0 0) rfl (by decide)

/-- Claim C5: duration addition is calendar-aware: one year past the
leap day 2024-02-29 is 2025-02-28, not 2025-03-01, and adding one month
honors the variable month lengths; consequently a one-year OLDER filter
on an instant of 2024-02-29 flips from no-match to match as now crosses
2025-02-28, the calendar anniversary used as the evaluation boundary. -/
theorem addDuration_calendar_aware :
    DateTime.addDuration ⟨2024, 2, 29, 0, 0, 0, 0⟩ { years := 1 } =
        ⟨2025, 2, 28, 0, 0, 0, 0⟩
    ∧ DateTime.addDuration ⟨2024, 1, 31, 0, 0, 0, 0⟩ { months := 1 } =
        ⟨2024, 2, 29, 0, 0, 0, 0⟩
    ∧ DateTime.addDuration ⟨2023, 1, 31, 0, 0, 0, 0⟩ { months := 1 } =
        ⟨2023, 2, 28, 0, 0, 0, 0⟩
    ∧ isMatch ((olderFilter { years := 1 } 0).pipeline
        ⟨some ⟨DateTime.toEpoch ⟨2024, 2, 29, 0, 0, 0, 0⟩⟩⟩
        (.raises .attributeError)
        (DateTime.toEpoch ⟨2025, 2, 28, 0, 0, 1, 0⟩)) = true
    ∧ isMatch ((olderFilter { years := 1 } 0).pipeline
        ⟨some ⟨DateTime.toEpoch ⟨2024, 2, 29, 0, 0, 0, 0⟩⟩⟩
        (.raises .attributeError)
        (DateTime.toEpoch ⟨2025, 2, 27, 23, 59, 59, 0⟩)) = false :=
  ⟨by decide, by decide, by decide, by decide, by decide⟩

/-- Claim C6: a mode string whose stripped lower-casing is older or
newer constructs a filter whose direction is exactly that value; any
other string makes construction fail with the ValueError, producing no
filter. -/
theorem init_mode_validation
    (years months weeks days hours minutes seconds : Nat) (mode : String)
    (timezone : Int) :
    (pyLower (pyStrip mode) = "older" →
      DateAdded.init years months weeks days hours minutes seconds mode timezone =
        .ok { _mode := "older", is_older := true, timezone := timezone,
              timedelta := ⟨years, months, weeks, days, hours, minutes, seconds⟩ })
    ∧ (pyLower (pyStrip mode) = "newer" →
      DateAdded.init years months weeks days hours minutes seconds mode timezone =
        .ok { _mode := "newer", is_older := false, timezone := timezone,
              timedelta := ⟨years, months, weeks, days, hours, minutes, seconds⟩ })
    ∧ (pyLower (pyStrip mode) ≠ "older" → pyLower (pyStrip mode) ≠ "newer" →
      DateAdded.init years months weeks days hours minutes seconds mode timezone =
        .error "Unknown option for mode: must be older or newer.") := by
  refine ⟨fun h => ?_, fun h => ?_, fun h1 h2 => ?_⟩
  · simp only [DateAdded.init, h]
    rfl
  · simp only [DateAdded.init, h]
    rfl
  · have e1 : (pyLower (pyStrip mode) != "older") = true := by
      simp [bne_iff_ne, h1]
    have e2 : (pyLower (pyStrip mode) != "newer") = true := by
      simp [bne_iff_ne, h2]
    simp [DateAdded.init, e1, e2]

/-- Witness for C6: all three branches at concrete mode strings. -/
theorem init_mode_validation_witness :
    DateAdded.init 1 2 3 4 5 6 7 " OLDER " 60 =
      .ok { _mode := "older", is_older := true, timezone := 60,
            timedelta := ⟨1, 2, 3, 4, 5, 6, 7⟩ }
    ∧ DateAdded.init 0 0 0 0 0 0 0 "Newer" 0 =
      .ok { _mode := "newer", is_older := false, timezone := 0,
            timedelta := ⟨0, 0, 0, 0, 0, 0, 0⟩ }
    ∧ DateAdded.init 0 0 0 0 0 0 0 "oldest" 0 =
      .error "Unknown option for mode: must be older or newer." :=
  ⟨(init_mode_validation 1 2 3 4 5 6 7 " OLDER " 60).1 (by decide),
   (init_mode_validation 0 0 0 0 0 0 0 "Newer" 0).2.1 (by decide),
   (init_mode_validation 0 0 0 0 0 0 0 "oldest" 0).2.2 (by decide) (by decide)⟩

/-- Claim C7: on a missing path the stat failure propagates out of
`pipeline` unchanged, for every configuration. The second half of the
claim fails on the code: evaluation of an existing path has a further
failure mode, because a subprocess failure of the native metadata query
is not caught and aborts evaluation. -/
theorem pipeline_missing_path_and_query_failure :
    (∀ (self : DateAdded) (mdls : MdlsResult) (now : Int),
        self.pipeline ⟨none⟩ mdls now = .error .pathNotFoundError)
    ∧ sampleFilter.pipeline ⟨some ⟨1000⟩⟩ (.raises .calledProcessError) 0 =
        .error .calledProcessError :=
  ⟨fun _ _ _ => rfl, rfl⟩

/-- Claim C8: whenever the instant resolves, evaluation returns either
the payload mapping the single key dateadded to the resolved instant or
the no-match sentinel `none`, never an error; and every returned
payload exposes exactly the calendar components of the resolved
instant. -/
theorem pipeline_payload_shape
    (self : DateAdded) (path : PathState) (mdls : MdlsResult) (now : Int)
    (i : DateTime)
    (hres : self._date_added path mdls = .ok i) :
    (self.pipeline path mdls now =
        .ok (some { key := "dateadded", dateadded := i })
      ∨ self.pipeline path mdls now = .ok none)
    ∧ (∀ p, self.pipeline path mdls now = .ok (some p) →
        p.key = "dateadded" ∧ p.dateadded.year = i.year ∧
        p.dateadded.month = i.month ∧ p.dateadded.day = i.day ∧
        p.dateadded.hour = i.hour ∧ p.dateadded.minute = i.minute ∧
        p.dateadded.second = i.second) := by
  rw [pipeline_resolved self path mdls now i hres]
  cases hb : matchDecision self i now with
  | false =>
    refine ⟨Or.inr rfl, fun p hp => ?_⟩
    simp at hp
  | true =>
    refine ⟨Or.inl rfl, fun p hp => ?_⟩
    have hpi : ({ key := "dateadded", dateadded := i } : MatchPayload) = p := by
      simpa using hp
    subst hpi
    exact ⟨rfl, rfl, rfl, rfl, rfl, rfl, rfl⟩

/-- Witness for C8: the ten-day OLDER filter on a concrete path returns
the payload or the sentinel. -/
theorem pipeline_payload_shape_witness :
    sampleFilter.pipeline ⟨some ⟨0⟩⟩ (.raises .attributeError) 1296000 =
        .ok (some { key := "dateadded", dateadded := fromTimestamp 0 0 })
      ∨ sampleFilter.pipeline ⟨some ⟨0⟩⟩ (.raises .attributeError) 1296000 =
        .ok none :=
  (pipeline_payload_shape sampleFilter ⟨some ⟨0⟩⟩ (.raises .attributeError)
    1296000 (fromTimestamp 0 0) rfl).1

/-- Claim C9: for a fixed non-null duration, instant and now, exactly
one of the OLDER and NEWER filters matches; and at the exact boundary
instant, where instant plus duration equals now, the strict `is_past`
comparison assigns the match to NEWER, not OLDER. -/
theorem direction_symmetry
    (d : Duration) (tz now : Int) (path : PathState) (mdls : MdlsResult)
    (i : DateTime)
    (hnz : d ≠ {})
    (hres : (olderFilter d tz)._date_added path mdls = .ok i) :
    (isMatch ((olderFilter d tz).pipeline path mdls now) =
      !isMatch ((newerFilter d tz).pipeline path mdls now))
    ∧ ((i.addDuration d).toEpoch = now →
        isMatch ((newerFilter d tz).pipeline path mdls now) = true ∧
        isMatch ((olderFilter d tz).pipeline path mdls now) = false) := by
  have hres2 : (newerFilter d tz)._date_added path mdls = .ok i := by
    rw [date_added_depends_only_on_timezone (newerFilter d tz) (olderFilter d tz)
      path mdls rfl]
    exact hres
  have hw : d.inWordsNonempty = true :=
    (Duration.inWordsNonempty_eq_true_iff d).2 hnz
  rw [pipeline_resolved (olderFilter d tz) path mdls now i hres,
    pipeline_resolved (newerFilter d tz) path mdls now i hres2]
  constructor
  · cases hp : (i.addDuration d).is_past now <;>
      simp [matchDecision, olderFilter, newerFilter, hw, hp, isMatch]
  · intro hb
    have hp : (i.addDuration d).is_past now = false := by
      simp [DateTime.is_past, hb]
    simp [matchDecision, olderFilter, newerFilter, hw, hp, isMatch]

/-- Witness for C9: a one-day duration at the exact boundary instant:
the NEWER filter matches and the OLDER filter does not. -/
theorem direction_symmetry_witness :
    isMatch ((newerFilter { days := 1 } 0).pipeline ⟨some ⟨0⟩⟩
        (.raises .attributeError) 86400) = true
    ∧ isMatch ((olderFilter { days := 1 } 0).pipeline ⟨some ⟨0⟩⟩
        (.raises .attributeError) 86400) = false :=
  (direction_symmetry { days := 1 } 0 86400 ⟨some ⟨0⟩⟩ (.raises .attributeError)
    (fromTimestamp 0 0) (by decide) rfl).2 (by decide)

/-- Claim C10: evaluation is a pure function of the configured state,
the path state and now: the state-threaded translation hands the
configured state back unchanged in every branch, a repeated call on the
returned state gives the same result, and the threaded translation
refines the direct one. -/
theorem pipeline_pure (self : DateAdded) (path : PathState)
    (mdls : MdlsResult) (now : Int) :
    (self.pipelineSt path mdls now).2 = self
    ∧ ((self.pipelineSt path mdls now).2.pipelineSt path mdls now).1 =
        (self.pipelineSt path mdls now).1
    ∧ (self.pipelineSt path mdls now).1 = self.pipeline path mdls now := by
  have h2 : (self.pipelineSt path mdls now).2 = self := by
    unfold DateAdded.pipelineSt
    cases h : self._date_added path mdls with
    | error e => rfl
    | ok fa =>
      dsimp only
      rw [apply_ite Prod.snd]
      simp
  have h3 : (self.pipelineSt path mdls now).1 = self.pipeline path mdls now := by
    unfold DateAdded.pipelineSt DateAdded.pipeline
    cases h : self._date_added path mdls with
    | error e => rfl
    | ok fa =>
      dsimp only
      rw [apply_ite Prod.fst]
  exact ⟨h2, by rw [h2], h3⟩

end Organize
